import Mathlib

/-!
Verification of the Metropolis core specification (hierarchical process
supervisor and cluster curator) against an executable shallow embedding.

The supervisor implementation (osbase/supervisor) and the curator leader
implementation (metropolis/node/core/curator) are not present in the
source tree; only their tests are. The definitions below are therefore
modelled from the specification document (spec.md §3, §4.1, §4.2, §4.3,
§8), faithful to its words, and the claims are settled against these
models.
-/

namespace Supervisor

/-- Modelled from the spec: the state of a supervision node, one of
{NEW, LIVE, HEALTHY, DONE, CANCELED, DEAD} (spec §3, "Supervision node"). -/
inductive NodeState where
  | NEW
  | LIVE
  | HEALTHY
  | DONE
  | CANCELED
  | DEAD
deriving DecidableEq, Repr

/-- Modelled from the spec: the events driving the per-node state machine of
spec §4.1 ("State machine of a supervision node"): spawn, Signal(Healthy),
Signal(Done), an error-or-panic outcome, and parent cancellation. -/
inductive SEvent where
  | spawn
  | sigHealthy
  | sigDone
  | fail
  | cancel
deriving DecidableEq, Repr

/-- Modelled from the spec: the state machine of a supervision node
(spec §4.1 diagram): NEW -spawn-> LIVE -Signal(Healthy)-> HEALTHY
-Signal(Done)-> DONE; LIVE/HEALTHY -outcome(error|panic)-> DEAD;
NEW/LIVE/HEALTHY -parent cancel-> CANCELED. Other events leave the state
unchanged. -/
def step : NodeState → SEvent → NodeState
  | .NEW, .spawn => .LIVE
  | .LIVE, .sigHealthy => .HEALTHY
  | .HEALTHY, .sigDone => .DONE
  | .LIVE, .fail => .DEAD
  | .HEALTHY, .fail => .DEAD
  | .NEW, .cancel => .CANCELED
  | .LIVE, .cancel => .CANCELED
  | .HEALTHY, .cancel => .CANCELED
  | s, _ => s

/-- A node state counts as live when the runnable is currently running,
i.e. LIVE or HEALTHY. -/
def liveState : NodeState → Bool
  | .LIVE => true
  | .HEALTHY => true
  | _ => false

/-- A member of a supervision group: the runnable's name (unique among
siblings, spec §3) and its current state. -/
structure Member where
  name : String
  state : NodeState
deriving DecidableEq, Repr

/-- Ordered events emitted by the processor while handling the death of a
group member (spec §4.1, "Group failure"). -/
inductive Event where
  | died (n : String)
  | canceled (n : String)
  | respawned (n : String)
deriving DecidableEq, Repr

/-- Whether an event is a cancellation. -/
def Event.isCanceled : Event → Bool
  | .canceled _ => true
  | _ => false

/-- Whether an event is a re-spawn. -/
def Event.isRespawned : Event → Bool
  | .respawned _ => true
  | _ => false

/-- Modelled from the spec: the ordered trace of processor actions when a
member named d of group g dies with an error (spec §4.1, "Group failure"):
the processor first cancels every still-live sibling in the same group,
waits for them to exit, and only then restarts the whole group together. -/
def handleGroupDeath (d : String) (g : List Member) : List Event :=
  Event.died d ::
    ((g.filter (fun m => m.name != d && liveState m.state)).map
        (fun m => Event.canceled m.name)
      ++ g.map (fun m => Event.respawned m.name))

/-- Modelled from the spec: restarting a group re-creates every member in
state NEW (spec §4.1: "restarts the whole group together"). -/
def restartGroup (g : List Member) : List Member :=
  g.map (fun m => { m with state := NodeState.NEW })

/-- Modelled from the spec: running a group whose members each signal
healthy (as the runnables of the seed scenarios of spec §8 do): each
member is spawned and then signals SignalHealthy. -/
def runHealthy (g : List Member) : List Member :=
  g.map (fun m => { m with state := step (step m.state .spawn) .sigHealthy })

/-- True when some cancellation event occurs strictly after some re-spawn
event in the trace. -/
def cancelAfterRespawn : List Event → Bool
  | [] => false
  | e :: rest => (e.isRespawned && rest.any Event.isCanceled) || cancelAfterRespawn rest

theorem cancelAfterRespawn_eq_false_of_no_cancel :
    ∀ (l : List Event), (∀ e ∈ l, Event.isCanceled e = false) →
      cancelAfterRespawn l = false := by
  intro l
  induction l with
  | nil => intro _; rfl
  | cons e rest ih =>
    intro h
    simp only [cancelAfterRespawn, Bool.or_eq_false_iff, Bool.and_eq_false_iff]
    constructor
    · right
      simp only [List.any_eq_false]
      intro x hx
      simpa using h x (List.mem_cons_of_mem _ hx)
    · exact ih (fun x hx => h x (List.mem_cons_of_mem _ hx))

theorem cancelAfterRespawn_append_eq_false :
    ∀ (cs rs : List Event),
      (∀ e ∈ cs, Event.isRespawned e = false) →
      (∀ e ∈ rs, Event.isCanceled e = false) →
      cancelAfterRespawn (cs ++ rs) = false := by
  intro cs rs hcs hrs
  induction cs with
  | nil =>
    simpa using cancelAfterRespawn_eq_false_of_no_cancel rs hrs
  | cons e cs ih =>
    simp only [List.cons_append, cancelAfterRespawn, Bool.or_eq_false_iff,
      Bool.and_eq_false_iff]
    constructor
    · left
      exact hcs e (List.mem_cons_self _ _)
    · exact ih (fun x hx => hcs x (List.mem_cons_of_mem _ hx))

/-- Modelled from the spec: the backoff base of 100 ms (spec §3: base=100 ms). -/
def baseBackoffMs : Nat := 100

/-- Modelled from the spec: the backoff cap of 60 s (spec §3: cap=60 s). -/
def capBackoffMs : Nat := 60000

/-- Modelled from the spec: the duration (in milliseconds) before the next
restart of a node with f consecutive failures since it last reached HEALTHY,
computed as min(base * 2^consecutive_failures, cap) (spec §3,
"Supervision node", backoff). -/
def backoffMs (f : Nat) : Nat :=
  min (baseBackoffMs * 2 ^ f) capBackoffMs

/-- Events in the life of a single supervised runnable as observed by the
backoff machinery: the runnable dies, or it reaches HEALTHY. -/
inductive REvent where
  | die
  | healthy
deriving DecidableEq, Repr

/-- Modelled from the spec: the sequence of restart delays produced while a
node goes through the given die/healthy events, starting with f consecutive
failures. Each death is restarted after backoffMs of the failure count
accumulated so far, and any transition to DEAD increments that count;
reaching HEALTHY resets it to zero (spec §3 and §4.1: "Reaching HEALTHY
zeros the failure counter; any transition to DEAD increments it"). -/
def restartDelays : Nat → List REvent → List Nat
  | _, [] => []
  | f, .die :: rest => backoffMs f :: restartDelays (f + 1) rest
  | _, .healthy :: rest => restartDelays 0 rest

/-- Possible outcomes of a runnable invocation (spec §3, "Runnable":
clean, error, or panic; spec §4.1 "Failure semantics" distinguishes a
context-canceled error from other errors). -/
inductive Outcome where
  | done
  | errCanceled
  | errOther
  | panicked
deriving DecidableEq, Repr

/-- Modelled from the spec: how the processor settles a runnable's returned
outcome (spec §4.1, "Panic isolation" and "Failure semantics"). A clean
return is DONE; a context-canceled return marks the node CANCELED, not
DEAD; any other error marks it DEAD; an unhandled panic is captured and
reported as a DEAD outcome, unless the supervisor was configured with
propagate-panic, in which case the panic propagates past the supervisor
(modelled as Except.error). -/
def settle (propagate : Bool) : Outcome → Except Unit NodeState
  | .done => .ok .DONE
  | .errCanceled => .ok .CANCELED
  | .errOther => .ok .DEAD
  | .panicked => if propagate then .error () else .ok .DEAD

/-- A two-member demonstration group as in the seed scenarios of spec §8:
members named one and two, both currently HEALTHY. -/
def demoGroup : List Member :=
  [{ name := "one", state := NodeState.HEALTHY },
   { name := "two", state := NodeState.HEALTHY }]

/-- C1: for every supervision group, when a member dies with an error, every
other still-live member of the group is canceled before any member of the
group is re-spawned (no cancellation event follows a re-spawn event in the
processor trace, and every live sibling does get a cancellation event), the
whole group is restarted together as one unit (every member is re-spawned),
and after the restarted members run and signal healthy, every member is
HEALTHY again. -/
theorem claim_C1_group_death_cancel_then_restart (g : List Member) (d : String) :
    cancelAfterRespawn (handleGroupDeath d g) = false ∧
    (∀ m ∈ g, m.name ≠ d → liveState m.state = true →
      Event.canceled m.name ∈ handleGroupDeath d g) ∧
    (∀ m ∈ g, Event.respawned m.name ∈ handleGroupDeath d g) ∧
    (∀ m ∈ runHealthy (restartGroup g), m.state = NodeState.HEALTHY) := by
  refine ⟨?_, ?_, ?_, ?_⟩
  · simp only [handleGroupDeath, cancelAfterRespawn, Event.isRespawned,
      Bool.false_and, Bool.false_or]
    apply cancelAfterRespawn_append_eq_false
    · intro e he
      obtain ⟨m, _, rfl⟩ := List.mem_map.mp he
      rfl
    · intro e he
      obtain ⟨m, _, rfl⟩ := List.mem_map.mp he
      rfl
  · intro m hm hne hlive
    apply List.mem_cons_of_mem
    apply List.mem_append_left
    apply List.mem_map_of_mem
    apply List.mem_filter.mpr
    refine ⟨hm, ?_⟩
    simp [hlive, bne_iff_ne, hne]
  · intro m hm
    apply List.mem_cons_of_mem
    apply List.mem_append_right
    exact List.mem_map_of_mem _ hm
  · intro m hm
    simp only [runHealthy, restartGroup, List.map_map] at hm
    obtain ⟨m0, _, rfl⟩ := List.mem_map.mp hm
    rfl

/-- Witness for C1: in the demonstration group, the still-live sibling named
one is canceled when the member named two dies. -/
theorem claim_C1_witness :
    Event.canceled "one" ∈ handleGroupDeath "two" demoGroup :=
  (claim_C1_group_death_cancel_then_restart demoGroup "two").2.1
    { name := "one", state := NodeState.HEALTHY }
    (by simp [demoGroup]) (by decide) (by decide)

/-- C2: the delay before a node's next restart is
min(100 ms * 2^consecutive_failures, 60 s); the backoff never decreases as
failures accumulate; reaching HEALTHY resets the failure count to zero;
after four rapid consecutive failures the fifth restart is delayed at least
1 second (1600 ms); after a HEALTHY reset a single subsequent failure is
restarted in less than 1 second but no sooner than the 100 ms base. -/
theorem claim_C2_backoff_exponential_reset_on_healthy :
    (∀ f, backoffMs f = min (100 * 2 ^ f) 60000) ∧
    (∀ f, backoffMs f ≤ backoffMs (f + 1)) ∧
    (∀ f evs, restartDelays f (REvent.healthy :: evs) = restartDelays 0 evs) ∧
    restartDelays 0 [REvent.die, REvent.die, REvent.die, REvent.die, REvent.die]
      = [100, 200, 400, 800, 1600] ∧
    1000 ≤ backoffMs 4 ∧
    restartDelays 0 [REvent.die, REvent.die, REvent.die, REvent.die, REvent.die,
        REvent.healthy, REvent.die]
      = [100, 200, 400, 800, 1600, 100] ∧
    100 ≤ backoffMs 0 ∧ backoffMs 0 < 1000 := by
  refine ⟨fun f => rfl, ?_, fun f evs => rfl, by decide, by decide, by decide,
    by decide, by decide⟩
  intro f
  apply min_le_min _ le_rfl
  exact Nat.mul_le_mul_left _ (Nat.pow_le_pow_right (by norm_num) (Nat.le_succ f))

/-- C3: under a supervisor not configured with propagate-panic, an unhandled
panic in a runnable is captured and settled as a DEAD (error) outcome; no
outcome ever propagates past the supervisor (the settle function never
produces an error escaping the supervisor); the panicking runnable's group
is restarted as one unit, and after the restarted members run and signal
healthy, every member (the siblings included) is HEALTHY again. -/
theorem claim_C3_panic_captured_group_restarted (g : List Member) (d : String) :
    settle false Outcome.panicked = Except.ok NodeState.DEAD ∧
    (∀ o, settle false o ≠ Except.error ()) ∧
    (∀ m ∈ g, Event.respawned m.name ∈ handleGroupDeath d g) ∧
    (∀ m ∈ runHealthy (restartGroup g), m.state = NodeState.HEALTHY) := by
  refine ⟨rfl, ?_, ?_, ?_⟩
  · intro o
    cases o <;> simp [settle]
  · intro m hm
    apply List.mem_cons_of_mem
    apply List.mem_append_right
    exact List.mem_map_of_mem _ hm
  · intro m hm
    simp only [runHealthy, restartGroup, List.map_map] at hm
    obtain ⟨m0, _, rfl⟩ := List.mem_map.mp hm
    rfl

/-- Witness for C3: in the demonstration group, when the member named two
panics, the panic is settled as a DEAD outcome and the sibling named one is
re-spawned with the group. -/
theorem claim_C3_witness :
    settle false Outcome.panicked = Except.ok NodeState.DEAD ∧
    Event.respawned "one" ∈ handleGroupDeath "two" demoGroup :=
  ⟨(claim_C3_panic_captured_group_restarted demoGroup "two").1,
   (claim_C3_panic_captured_group_restarted demoGroup "two").2.2.1
     { name := "one", state := NodeState.HEALTHY } (by simp [demoGroup])⟩

end Supervisor

namespace Curator

/-- Modelled from the spec: the state of a curator-owned node record, one of
{NEW, STANDBY, UP, DISOWNED} (spec §3, "Node record"). -/
inductive NState where
  | NEW
  | STANDBY
  | UP
  | DISOWNED
deriving DecidableEq, Repr

/-- Health of a node as reported by the curator (spec §4.2, "Health
computation"): HEALTHY, HEARTBEAT_TIMEOUT, or UNKNOWN. -/
inductive Health where
  | UNKNOWN
  | HEALTHY
  | HEARTBEAT_TIMEOUT
deriving DecidableEq, Repr

/-- Modelled from the spec: the health of a node at serve time (spec §4.2,
"Health computation", disambiguated by the quantified invariant of §8 that
an UP node is HEALTHY iff some heartbeat is recorded in the current leader
tenure and is fresh, and by seed scenario 6). Times are in milliseconds
since an arbitrary epoch; hb is the node's recorded heartbeat timestamp
under the current leader tenure, if any; startTs is when leadership was
assumed. Non-UP nodes are always UNKNOWN. For an UP node with a recorded
heartbeat: HEALTHY when now - max(startTs, hb) ≤ timeout, else
HEARTBEAT_TIMEOUT. For an UP node with no recorded heartbeat: UNKNOWN while
the leader tenure is no older than the timeout (the node has not had a
chance to report yet), else HEARTBEAT_TIMEOUT. -/
def nodeHealth (timeout : Nat) (st : NState) (now startTs : Nat)
    (hb : Option Nat) : Health :=
  if st = NState.UP then
    match hb with
    | some h =>
      if now - max startTs h ≤ timeout then Health.HEALTHY
      else Health.HEARTBEAT_TIMEOUT
    | none =>
      if now - startTs ≤ timeout then Health.UNKNOWN
      else Health.HEARTBEAT_TIMEOUT
  else Health.UNKNOWN

/-- A curator-owned node record, keyed by its public key; the cluster unlock
key is opaque bytes, absent until committed (spec §3, "Node record"). Keys
and byte strings are abstracted as naturals and lists of naturals. -/
structure CNode where
  pubkey : Nat
  joinKey : Nat
  cuk : Option (List Nat)
  state : NState
deriving DecidableEq, Repr

/-- The curator's replicated state: the current register ticket and the node
records (spec §6, "Persisted layout"). -/
structure ClusterState where
  ticket : List Nat
  nodes : List CNode
deriving DecidableEq, Repr

/-- Error codes surfaced by curator RPCs (spec §6, "Error codes"). -/
inductive RpcError where
  | permissionDenied
  | failedPrecondition
  | notFound
deriving DecidableEq, Repr

/-- Build a node record from its public key, join key, optional cluster
unlock key and state. -/
def mkNode (pk jk : Nat) (c : Option (List Nat)) (st : NState) : CNode :=
  { pubkey := pk, joinKey := jk, cuk := c, state := st }

/-- Look up the node record with the given public key. -/
def findNode (pk : Nat) (s : ClusterState) : Option CNode :=
  s.nodes.find? (fun n => n.pubkey == pk)

/-- Apply f to the node record with the given public key, leaving every
other record unchanged. -/
def updateNode (pk : Nat) (f : CNode → CNode) (s : ClusterState) : ClusterState :=
  { s with nodes := s.nodes.map (fun n => if n.pubkey == pk then f n else n) }

/-- Modelled from the spec: GetRegisterTicket returns a stable opaque byte
string; repeated calls return the same value until rotated (spec §4.2). The
call does not modify the cluster state. -/
def getRegisterTicket (s : ClusterState) : List Nat × ClusterState :=
  (s.ticket, s)

/-- Modelled from the spec: RegisterNode(ticket, join_key) validates the
ticket and creates a node record in state NEW (spec §4.2 and §4.3 step 1;
per §8 a ticket that does not match the current ticket fails with
PERMISSION_DENIED and the record is not created). A public key that is
already registered is rejected as a failed precondition (the spec does not
exercise this case). -/
def registerNode (s : ClusterState) (ticket : List Nat) (pk jk : Nat) :
    Except RpcError ClusterState :=
  if ticket ≠ s.ticket then Except.error RpcError.permissionDenied
  else
    match findNode pk s with
    | some _ => Except.error RpcError.failedPrecondition
    | none =>
      Except.ok { s with
        nodes := { pubkey := pk, joinKey := jk, cuk := none,
                   state := NState.NEW } :: s.nodes }

/-- Modelled from the spec: ApproveNode(pubkey) — idempotent NEW→STANDBY
(spec §4.2 and §4.3 step 2). An unknown public key is not found; a node
that is neither NEW nor STANDBY cannot be approved. -/
def approveNode (s : ClusterState) (pk : Nat) : Except RpcError ClusterState :=
  match findNode pk s with
  | none => Except.error RpcError.notFound
  | some n =>
    match n.state with
    | NState.NEW => Except.ok (updateNode pk (fun m => { m with state := NState.STANDBY }) s)
    | NState.STANDBY => Except.ok s
    | _ => Except.error RpcError.failedPrecondition

/-- Modelled from the spec: CommitNode(cluster_unlock_key) — the STANDBY→UP
transition, recording the CUK; idempotent: applied when the node is already
UP it returns success without changing the CUK (spec §4.2, §4.3 step 3, and
the round-trip laws of §8). -/
def commitNode (s : ClusterState) (pk : Nat) (cuk : List Nat) :
    Except RpcError ClusterState :=
  match findNode pk s with
  | none => Except.error RpcError.notFound
  | some n =>
    match n.state with
    | NState.STANDBY =>
      Except.ok (updateNode pk (fun m => { m with state := NState.UP, cuk := some cuk }) s)
    | NState.UP => Except.ok s
    | _ => Except.error RpcError.failedPrecondition

/-- Modelled from the spec: JoinNode — returns the persisted cluster unlock
key iff the node's state is UP (spec §4.2 and §4.3 step 5). -/
def joinNode (s : ClusterState) (pk : Nat) : Except RpcError (List Nat) :=
  match findNode pk s with
  | none => Except.error RpcError.notFound
  | some n =>
    if n.state = NState.UP then
      match n.cuk with
      | some c => Except.ok c
      | none => Except.error RpcError.failedPrecondition
    else Except.error RpcError.failedPrecondition

/-- Modelled from the spec: GetNodes with an empty filter returns all nodes;
here projected to each node's public key and state (spec §4.2). -/
def getNodes (s : ClusterState) : List (Nat × NState) :=
  s.nodes.map (fun n => (n.pubkey, n.state))

theorem find?_map_update (pk : Nat) (f : CNode → CNode)
    (hf : ∀ m, (f m).pubkey = m.pubkey) :
    ∀ (l : List CNode) (n : CNode),
      l.find? (fun m => m.pubkey == pk) = some n →
      (l.map (fun m => if m.pubkey == pk then f m else m)).find?
          (fun m => m.pubkey == pk) = some (f n) := by
  intro l
  induction l with
  | nil => intro n h; simp at h
  | cons a l ih =>
    intro n h
    cases hb : (a.pubkey == pk) with
    | true =>
      have hfa : ((f a).pubkey == pk) = true := by rw [hf a]; exact hb
      simp only [List.find?_cons, hb] at h
      cases h
      rw [List.map_cons, if_pos hb]
      exact List.find?_cons_of_pos _ hfa
    | false =>
      have hne : ¬((a.pubkey == pk) = true) := by simp [hb]
      simp only [List.find?_cons, hb] at h
      rw [List.map_cons, if_neg hne]
      simp only [List.find?_cons, hb]
      exact ih n h

theorem findNode_updateNode (pk : Nat) (f : CNode → CNode) (s : ClusterState)
    (n : CNode) (hf : ∀ m, (f m).pubkey = m.pubkey)
    (h : findNode pk s = some n) :
    findNode pk (updateNode pk f s) = some (f n) :=
  find?_map_update pk f hf s.nodes n h

theorem getNodes_of_findNode (pk : Nat) (s : ClusterState) (n : CNode)
    (h : findNode pk s = some n) : (pk, n.state) ∈ getNodes s := by
  have hmem : n ∈ s.nodes := List.mem_of_find?_eq_some h
  have hpk : n.pubkey = pk := by
    have := List.find?_some h
    simpa using this
  have : (n.pubkey, n.state) ∈ getNodes s := List.mem_map_of_mem _ hmem
  rwa [hpk] at this

/-- C4: for every UP node at serve time, with a heartbeat recorded under the
current leader tenure the curator reports HEALTHY iff
now - max(leader start, heartbeat) ≤ HeartbeatTimeout and otherwise
HEARTBEAT_TIMEOUT; with no recorded heartbeat it reports HEARTBEAT_TIMEOUT
when the leader tenure is older than HeartbeatTimeout and UNKNOWN when the
tenure is no older than HeartbeatTimeout; and every non-UP node is always
reported UNKNOWN regardless of leadership tenure. -/
theorem claim_C4_heartbeat_health (timeout now startTs : Nat) (st : NState)
    (hb : Option Nat) :
    (∀ h, hb = some h →
      (nodeHealth timeout NState.UP now startTs hb = Health.HEALTHY ↔
        now - max startTs h ≤ timeout)) ∧
    (∀ h, hb = some h → timeout < now - max startTs h →
      nodeHealth timeout NState.UP now startTs hb = Health.HEARTBEAT_TIMEOUT) ∧
    (hb = none → timeout < now - startTs →
      nodeHealth timeout NState.UP now startTs hb = Health.HEARTBEAT_TIMEOUT) ∧
    (hb = none → now - startTs ≤ timeout →
      nodeHealth timeout NState.UP now startTs hb = Health.UNKNOWN) ∧
    (st ≠ NState.UP → nodeHealth timeout st now startTs hb = Health.UNKNOWN) := by
  refine ⟨?_, ?_, ?_, ?_, ?_⟩
  · rintro h rfl
    by_cases hc : now - max startTs h ≤ timeout
    · simp [nodeHealth, hc]
    · simp [nodeHealth, hc]
  · rintro h rfl hlt
    simp [nodeHealth, Nat.not_le.mpr hlt]
  · rintro rfl hlt
    simp [nodeHealth, Nat.not_le.mpr hlt]
  · rintro rfl hle
    simp [nodeHealth, hle]
  · intro hst
    simp [nodeHealth, hst]

/-- Witness for C4: with HeartbeatTimeout 5 at time 10, an UP node with a
fresh heartbeat is HEALTHY; an UP node with no heartbeat under an old
tenure is HEARTBEAT_TIMEOUT, under a young tenure UNKNOWN; a STANDBY node
is UNKNOWN. -/
theorem claim_C4_witness :
    nodeHealth 5 NState.UP 10 0 (some 9) = Health.HEALTHY ∧
    nodeHealth 5 NState.UP 10 0 none = Health.HEARTBEAT_TIMEOUT ∧
    nodeHealth 5 NState.UP 10 8 none = Health.UNKNOWN ∧
    nodeHealth 5 NState.STANDBY 10 8 none = Health.UNKNOWN :=
  ⟨((claim_C4_heartbeat_health 5 10 0 NState.UP (some 9)).1 9 rfl).mpr (by decide),
   (claim_C4_heartbeat_health 5 10 0 NState.UP none).2.2.1 rfl (by decide),
   (claim_C4_heartbeat_health 5 10 8 NState.UP none).2.2.2.1 rfl (by decide),
   (claim_C4_heartbeat_health 5 10 8 NState.STANDBY none).2.2.2.2 (by decide)⟩

/-- C5: for a node registering into the cluster, RegisterNode with the valid
current ticket creates the node record in state NEW; ApproveNode moves it
NEW→STANDBY and a second ApproveNode succeeds yielding the same state as
one; CommitNode then moves it STANDBY→UP; GetNodes afterwards lists the
node as UP; and GetRegisterTicket returns the same stable ticket on
repeated calls. -/
theorem claim_C5_registration_lifecycle (s : ClusterState) (pk jk : Nat)
    (cuk : List Nat) (hfresh : findNode pk s = none) :
    (getRegisterTicket s).1 = (getRegisterTicket ((getRegisterTicket s).2)).1 ∧
    ∃ s1, registerNode s s.ticket pk jk = Except.ok s1 ∧
      (findNode pk s1).map CNode.state = some NState.NEW ∧
      ∃ s2, approveNode s1 pk = Except.ok s2 ∧
        (findNode pk s2).map CNode.state = some NState.STANDBY ∧
        approveNode s2 pk = Except.ok s2 ∧
        ∃ s3, commitNode s2 pk cuk = Except.ok s3 ∧
          (findNode pk s3).map CNode.state = some NState.UP ∧
          (pk, NState.UP) ∈ getNodes s3 := by
  have hbeq : (pk == pk) = true := by simp
  refine ⟨rfl, ?_⟩
  have hreg : registerNode s s.ticket pk jk
      = Except.ok { s with nodes := mkNode pk jk none NState.NEW :: s.nodes } := by
    unfold registerNode
    rw [if_neg (fun hcon => hcon rfl), hfresh]
    rfl
  have h1 : findNode pk { s with nodes := mkNode pk jk none NState.NEW :: s.nodes }
      = some (mkNode pk jk none NState.NEW) :=
    List.find?_cons_of_pos _ hbeq
  refine ⟨_, hreg, by rw [h1]; rfl, ?_⟩
  have happr : approveNode
        { s with nodes := mkNode pk jk none NState.NEW :: s.nodes } pk
      = Except.ok (updateNode pk (fun m => { m with state := NState.STANDBY })
          { s with nodes := mkNode pk jk none NState.NEW :: s.nodes }) := by
    unfold approveNode
    rw [h1]
    rfl
  have h2 : findNode pk (updateNode pk (fun m => { m with state := NState.STANDBY })
        { s with nodes := mkNode pk jk none NState.NEW :: s.nodes })
      = some (mkNode pk jk none NState.STANDBY) :=
    findNode_updateNode pk (fun m => { m with state := NState.STANDBY }) _ _
      (fun m => rfl) h1
  refine ⟨_, happr, by rw [h2]; rfl, ?_, ?_⟩
  · unfold approveNode
    rw [h2]
    rfl
  · have hcommit : commitNode (updateNode pk
            (fun m => { m with state := NState.STANDBY })
            { s with nodes := mkNode pk jk none NState.NEW :: s.nodes }) pk cuk
        = Except.ok (updateNode pk
            (fun m => { m with state := NState.UP, cuk := some cuk })
            (updateNode pk (fun m => { m with state := NState.STANDBY })
              { s with nodes := mkNode pk jk none NState.NEW :: s.nodes })) := by
      unfold commitNode
      rw [h2]
      rfl
    have h3 : findNode pk (updateNode pk
          (fun m => { m with state := NState.UP, cuk := some cuk })
          (updateNode pk (fun m => { m with state := NState.STANDBY })
            { s with nodes := mkNode pk jk none NState.NEW :: s.nodes }))
        = some (mkNode pk jk (some cuk) NState.UP) :=
      findNode_updateNode pk (fun m => { m with state := NState.UP, cuk := some cuk })
        _ _ (fun m => rfl) h2
    exact ⟨_, hcommit, by rw [h3]; rfl, getNodes_of_findNode pk _ _ h3⟩

/-- A one-empty-cluster demonstration state for the registration flow. -/
def regDemo : ClusterState := { ticket := [9], nodes := [] }

/-- Witness for C5: running the registration lifecycle in a concrete empty
cluster with ticket [9], registering public key 3 with join key 4 and
committing cluster unlock key [5]. -/
theorem claim_C5_witness :
    findNode 3 regDemo = none ∧
    ((getRegisterTicket regDemo).1
        = (getRegisterTicket ((getRegisterTicket regDemo).2)).1 ∧
      ∃ s1, registerNode regDemo regDemo.ticket 3 4 = Except.ok s1 ∧
        (findNode 3 s1).map CNode.state = some NState.NEW ∧
        ∃ s2, approveNode s1 3 = Except.ok s2 ∧
          (findNode 3 s2).map CNode.state = some NState.STANDBY ∧
          approveNode s2 3 = Except.ok s2 ∧
          ∃ s3, commitNode s2 3 [5] = Except.ok s3 ∧
            (findNode 3 s3).map CNode.state = some NState.UP ∧
            (3, NState.UP) ∈ getNodes s3) :=
  ⟨rfl, claim_C5_registration_lifecycle regDemo 3 4 [5] rfl⟩

/-- C6: for every node in state UP with a stored cluster unlock key, JoinNode
succeeds and returns exactly the stored key; and the key is byte-for-byte
what CommitNode persisted: committing a STANDBY node with a key and then
joining returns that same key. -/
theorem claim_C6_join_returns_committed_cuk (s : ClusterState) (pk : Nat)
    (cuk : List Nat) (n : CNode) (hn : findNode pk s = some n) :
    (n.state = NState.UP → n.cuk = some cuk → joinNode s pk = Except.ok cuk) ∧
    (n.state = NState.STANDBY →
      ∃ s2, commitNode s pk cuk = Except.ok s2 ∧
        joinNode s2 pk = Except.ok cuk) := by
  obtain ⟨npk, njk, ncuk, nst⟩ := n
  constructor
  · intro hup hcuk
    replace hup : nst = NState.UP := hup
    replace hcuk : ncuk = some cuk := hcuk
    subst hup
    subst hcuk
    unfold joinNode
    rw [hn]
    rfl
  · intro hsb
    replace hsb : nst = NState.STANDBY := hsb
    subst hsb
    have hcommit : commitNode s pk cuk = Except.ok (updateNode pk
        (fun m => { m with state := NState.UP, cuk := some cuk }) s) := by
      unfold commitNode
      rw [hn]
    have h2 : findNode pk (updateNode pk
          (fun m => { m with state := NState.UP, cuk := some cuk }) s)
        = some (mkNode npk njk (some cuk) NState.UP) :=
      findNode_updateNode pk (fun m => { m with state := NState.UP, cuk := some cuk })
        _ _ (fun m => rfl) hn
    refine ⟨_, hcommit, ?_⟩
    unfold joinNode
    rw [h2]
    rfl

/-- A one-node demonstration state for the join flow: an UP node with public
key 7, join key 8 and stored cluster unlock key [2, 2]. -/
def joinDemo : ClusterState :=
  { ticket := [1],
    nodes := [{ pubkey := 7, joinKey := 8, cuk := some [2, 2],
                state := NState.UP }] }

/-- Witness for C6: joining the demonstration cluster as the UP node with
public key 7 returns exactly the stored cluster unlock key [2, 2]. -/
theorem claim_C6_witness : joinNode joinDemo 7 = Except.ok [2, 2] :=
  (claim_C6_join_returns_committed_cuk joinDemo 7 [2, 2]
    { pubkey := 7, joinKey := 8, cuk := some [2, 2], state := NState.UP }
    rfl).1 rfl rfl

end Curator
